import Mathlib

/-!
# Verification of the surveillance system core

Shallow embedding of the surveillance repository's data model and
operations, with theorems checking the natural-language specification
against the code.  Frontend TypeScript logic (file validation, the live
alert panel) is embedded directly from the source; backend components
(query parsing, search, pipeline state machine, alert-rule engine) are
absent from the repository snapshot and are modelled from the spec where
a claim needs them.
-/

namespace Surveillance

/-! ## File validation (src/frontend/src/utils/formatters.ts, constants.ts) -/

/-- A browser `File` as far as `validateVideoFile` inspects it:
its MIME `type` and its `size` in bytes. -/
structure JSFile where
  type : String
  size : Nat
deriving DecidableEq, Repr

/-- From `src/frontend/src/utils/constants.ts`. -/
def MAX_FILE_SIZE_MB : Nat := 500

/-- From `src/frontend/src/utils/constants.ts`. -/
def MAX_FILE_SIZE_BYTES : Nat := MAX_FILE_SIZE_MB * 1024 * 1024

/-- From `src/frontend/src/utils/constants.ts`. -/
def ALLOWED_VIDEO_TYPES : List String :=
  ["video/mp4", "video/avi", "video/quicktime",
   "video/x-matroska", "video/x-ms-wmv", "video/x-flv"]

/-- Result record of `validateVideoFile`. -/
structure ValidationResult where
  valid : Bool
  error : Option String
deriving DecidableEq, Repr

/-- Error text returned by `validateVideoFile` for a bad MIME type. -/
def invalidTypeMsg : String :=
  "Invalid file type. Allowed formats: MP4, AVI, MOV, MKV, WMV, FLV"

/-- Error text returned by `validateVideoFile` for an oversized file. -/
def fileTooLargeMsg : String :=
  "File too large. Maximum size: 500MB"

/-- `validateVideoFile` from `src/frontend/src/utils/formatters.ts`:
first the MIME-type check against `ALLOWED_VIDEO_TYPES`, then the size
check against `MAX_FILE_SIZE_BYTES`. -/
def validateVideoFile (file : JSFile) : ValidationResult :=
  if ¬ ALLOWED_VIDEO_TYPES.contains file.type then
    { valid := false, error := some invalidTypeMsg }
  else if file.size > MAX_FILE_SIZE_BYTES then
    { valid := false, error := some fileTooLargeMsg }
  else
    { valid := true, error := none }

/-- C9: `validateVideoFile` rejects exactly the files whose MIME type is
outside the six allowed video types or whose size exceeds
`500 * 1024 * 1024` bytes, always with a non-empty error message; a file
passing both checks is valid with no error; and the type check is applied
before the size check (a file failing both yields the type error). -/
theorem validateVideoFile_correct (file : JSFile) :
    ((validateVideoFile file).valid = false ↔
      (¬ file.type ∈ ALLOWED_VIDEO_TYPES ∨ file.size > MAX_FILE_SIZE_BYTES)) ∧
    ((validateVideoFile file).valid = false →
      ∃ msg, (validateVideoFile file).error = some msg ∧ msg ≠ "") ∧
    ((validateVideoFile file).valid = true →
      (validateVideoFile file).error = none) ∧
    (¬ file.type ∈ ALLOWED_VIDEO_TYPES →
      (validateVideoFile file).error = some invalidTypeMsg) := by
  unfold validateVideoFile
  by_cases ht : file.type ∈ ALLOWED_VIDEO_TYPES <;>
    by_cases hs : file.size > MAX_FILE_SIZE_BYTES <;>
      simp [ht, hs, invalidTypeMsg, fileTooLargeMsg]

/-- Witness for C9: an oversized text file is rejected with the
type-error message (type check first), and a small mp4 file is valid. -/
theorem validateVideoFile_correct_witness :
    (validateVideoFile ⟨"text/plain", 600 * 1024 * 1024⟩).error =
      some invalidTypeMsg ∧
    (validateVideoFile ⟨"video/mp4", 1024⟩).valid = true := by
  refine ⟨(validateVideoFile_correct ⟨"text/plain", 600 * 1024 * 1024⟩).2.2.2 ?_, ?_⟩
  · decide
  · decide

/-! ## Live alert feed (src/unnamed/part_002 SecurityFeed, AlertPanel.tsx) -/

/-- The `PriorityType` union from the live-surveillance feed. -/
inductive AlertPriority where
  | HIGH | MEDIUM | LOW | PENDING
deriving DecidableEq, Repr

/-- The `Alert` record of the live feed (`SecurityFeed` / `AlertPanel`). -/
structure LiveAlert where
  id : String
  behavior : String
  cameraId : String
  cameraName : String
  confidence : ℚ
  priority : AlertPriority
  timestamp : String
  acknowledged : Bool
  falsePositive : Bool
deriving DecidableEq, Repr

/-- `handleAcknowledgeAlert` from `SecurityFeed`: map over the alert
list, setting `acknowledged` on the alert whose id matches. -/
def handleAcknowledgeAlert (id : String) (alerts : List LiveAlert) : List LiveAlert :=
  alerts.map fun alert => if alert.id = id then { alert with acknowledged := true } else alert

/-- `handleFalsePositiveAlert` from `SecurityFeed`: map over the alert
list, setting `falsePositive` on the alert whose id matches. -/
def handleFalsePositiveAlert (id : String) (alerts : List LiveAlert) : List LiveAlert :=
  alerts.map fun alert => if alert.id = id then { alert with falsePositive := true } else alert

/-- `activeAlerts` from `AlertPanel`: alerts neither acknowledged nor
marked false-positive. -/
def activeAlerts (alerts : List LiveAlert) : List LiveAlert :=
  alerts.filter fun a => !a.acknowledged && !a.falsePositive

/-- `highPriorityCount` from `AlertPanel`. -/
def highPriorityCount (alerts : List LiveAlert) : Nat :=
  ((activeAlerts alerts).filter fun a => a.priority == AlertPriority.HIGH).length

/-- `mediumPriorityCount` from `AlertPanel`. -/
def mediumPriorityCount (alerts : List LiveAlert) : Nat :=
  ((activeAlerts alerts).filter fun a => a.priority == AlertPriority.MEDIUM).length

/-- `lowPriorityCount` from `AlertPanel`. -/
def lowPriorityCount (alerts : List LiveAlert) : Nat :=
  ((activeAlerts alerts).filter fun a => a.priority == AlertPriority.LOW).length

/-- C10: marking an alert acknowledged or false-positive modifies only
the matching alert's flag (position by position, every other alert and
every other field is unchanged); `AlertPanel`'s active list holds exactly
the alerts with `acknowledged = false` and `falsePositive = false`; the
three priority counts count exactly the active alerts of that priority;
and an alert just acknowledged or marked false-positive is absent from
the active list. -/
theorem alertPanel_frame_and_counts (alerts : List LiveAlert) (id : String) :
    (∀ (i : Nat) (a : LiveAlert), alerts[i]? = some a →
      (a.id ≠ id → (handleAcknowledgeAlert id alerts)[i]? = some a ∧
                   (handleFalsePositiveAlert id alerts)[i]? = some a) ∧
      (a.id = id → (handleAcknowledgeAlert id alerts)[i]? =
                      some { a with acknowledged := true } ∧
                   (handleFalsePositiveAlert id alerts)[i]? =
                      some { a with falsePositive := true })) ∧
    (∀ a : LiveAlert, a ∈ activeAlerts alerts ↔
      a ∈ alerts ∧ a.acknowledged = false ∧ a.falsePositive = false) ∧
    highPriorityCount alerts = (alerts.filter fun a =>
      !a.acknowledged && !a.falsePositive && a.priority == AlertPriority.HIGH).length ∧
    mediumPriorityCount alerts = (alerts.filter fun a =>
      !a.acknowledged && !a.falsePositive && a.priority == AlertPriority.MEDIUM).length ∧
    lowPriorityCount alerts = (alerts.filter fun a =>
      !a.acknowledged && !a.falsePositive && a.priority == AlertPriority.LOW).length ∧
    (∀ a ∈ activeAlerts (handleAcknowledgeAlert id alerts), a.id ≠ id) ∧
    (∀ a ∈ activeAlerts (handleFalsePositiveAlert id alerts), a.id ≠ id) := by
  refine ⟨?_, ?_, ?_, ?_, ?_, ?_, ?_⟩
  · intro i a ha
    constructor
    · intro hne
      simp [handleAcknowledgeAlert, handleFalsePositiveAlert, ha, hne]
    · intro heq
      simp [handleAcknowledgeAlert, handleFalsePositiveAlert, ha, heq]
  · intro a
    simp [activeAlerts, List.mem_filter, and_assoc]
  · simp [highPriorityCount, activeAlerts, List.filter_filter, Bool.and_comm,
      Bool.and_left_comm, Bool.and_assoc]
  · simp [mediumPriorityCount, activeAlerts, List.filter_filter, Bool.and_comm,
      Bool.and_left_comm, Bool.and_assoc]
  · simp [lowPriorityCount, activeAlerts, List.filter_filter, Bool.and_comm,
      Bool.and_left_comm, Bool.and_assoc]
  · intro a ha
    rcases List.mem_filter.mp ha with ⟨hmem, hact⟩
    rcases List.mem_map.mp hmem with ⟨b, _, hb⟩
    by_cases hid : b.id = id
    · exfalso
      rw [if_pos hid] at hb
      rw [← hb] at hact
      simp at hact
    · rw [if_neg hid] at hb
      rw [← hb]
      exact hid
  · intro a ha
    rcases List.mem_filter.mp ha with ⟨hmem, hact⟩
    rcases List.mem_map.mp hmem with ⟨b, _, hb⟩
    by_cases hid : b.id = id
    · exfalso
      rw [if_pos hid] at hb
      rw [← hb] at hact
      simp at hact
    · rw [if_neg hid] at hb
      rw [← hb]
      exact hid

/-- A concrete live alert used to witness the frame property. -/
def sampleAlertOne : LiveAlert :=
  { id := "1", behavior := "RUN", cameraId := "cam1", cameraName := "Entrance A",
    confidence := 0.95, priority := AlertPriority.HIGH, timestamp := "5m ago",
    acknowledged := false, falsePositive := false }

/-- A concrete live alert used to witness the frame property. -/
def sampleAlertTwo : LiveAlert :=
  { id := "2", behavior := "BEND", cameraId := "cam2", cameraName := "Corridor B",
    confidence := 0.82, priority := AlertPriority.MEDIUM, timestamp := "12m ago",
    acknowledged := false, falsePositive := false }

/-- Witness for C10: acknowledging alert "1" in a two-alert feed sets
only its flag and leaves alert "2" untouched. -/
theorem alertPanel_frame_and_counts_witness :
    (handleAcknowledgeAlert "1" [sampleAlertOne, sampleAlertTwo])[0]? =
      some { sampleAlertOne with acknowledged := true } ∧
    (handleAcknowledgeAlert "1" [sampleAlertOne, sampleAlertTwo])[1]? =
      some sampleAlertTwo := by
  have h := alertPanel_frame_and_counts [sampleAlertOne, sampleAlertTwo] "1"
  exact ⟨((h.1 0 sampleAlertOne rfl).2 (by decide)).1,
         ((h.1 1 sampleAlertTwo rfl).1 (by decide)).1⟩

/-! ## QueryParser (backend; modelled from the spec) -/

/-- The `ParsedQuery` record from
`src/frontend/src/types/search.types.ts`: optional gender and colors
plus the preserved raw query text. -/
structure ParsedQuery where
  gender : Option String
  upper_color : Option String
  lower_color : Option String
  raw_query : String
deriving DecidableEq, Repr

/-- Modelled from the spec: the gender vocabulary of QueryParser.Parse
(`male|man|boy` map to `male`, `female|woman|girl` map to `female`). -/
def genderOf (tok : String) : Option String :=
  if tok = "male" ∨ tok = "man" ∨ tok = "boy" then some "male"
  else if tok = "female" ∨ tok = "woman" ∨ tok = "girl" then some "female"
  else none

/-- The fixed color vocabulary
(`COLOR_OPTIONS` in `src/frontend/src/utils/constants.ts`). -/
def colorVocab : List String :=
  ["red", "blue", "black", "white", "gray", "green",
   "yellow", "brown", "pink", "orange"]

/-- Modelled from the spec: top-ish garment nouns of QueryParser
(shirt/jacket/top). -/
def topNouns : List String := ["shirt", "jacket", "top"]

/-- Modelled from the spec: bottom-ish garment nouns of QueryParser
(pants/trousers/skirt, and `bottom` as in the spec's own example). -/
def bottomNouns : List String := ["pants", "trousers", "skirt", "bottom"]

/-- A garment slot a color mention resolves to. -/
inductive GarmentSlot where
  | upper | lower
deriving DecidableEq, Repr

/-- Modelled from the spec: resolve the slot for a color mention by the
garment-position hint among the following tokens, stopping at the next
color mention; with no positional cue the color defaults to
`upper_color`. -/
def slotFor : List String → GarmentSlot
  | [] => GarmentSlot.upper
  | t :: ts =>
    if colorVocab.contains t then GarmentSlot.upper
    else if topNouns.contains t then GarmentSlot.upper
    else if bottomNouns.contains t then GarmentSlot.lower
    else slotFor ts

/-- Split a lower-cased character stream on spaces, accumulating the
current token in reverse. -/
def splitOnSpace (cur : List Char) : List Char → List (List Char)
  | [] => [cur.reverse]
  | c :: cs =>
    if c = ' ' then cur.reverse :: splitOnSpace [] cs
    else splitOnSpace (c :: cur) cs

/-- Modelled from the spec: QueryParser lower-cases and tokenizes its
input on spaces. -/
def tokenize (text : String) : List String :=
  (splitOnSpace [] (text.toList.map Char.toLower)).map String.mk

/-- Modelled from the spec: the token scan of QueryParser.Parse.
Gender tokens and color tokens update their slot left to right
(last-match-wins per slot); unrecognized tokens are ignored. -/
def parseTokens (acc : ParsedQuery) : List String → ParsedQuery
  | [] => acc
  | t :: ts =>
    let acc1 := match genderOf t with
      | some g => { acc with gender := some g }
      | none => acc
    let acc2 := if colorVocab.contains t then
        match slotFor ts with
        | GarmentSlot.upper => { acc1 with upper_color := some t }
        | GarmentSlot.lower => { acc1 with lower_color := some t }
      else acc1
    parseTokens acc2 ts

/-- Modelled from the spec: `QueryParser.Parse` (absent backend).
Lower-case and tokenize the input, extract gender and colors
best-effort, never fail, and preserve the raw text. -/
def Parse (text : String) : ParsedQuery :=
  parseTokens
    { gender := none, upper_color := none, lower_color := none, raw_query := text }
    (tokenize text)

/-- C2: `Parse` is total — every input yields a `ParsedQuery` carrying
the raw text, and an input with no recognizable gender or color token
yields all attribute fields unset — and on the four spec examples it
returns exactly the documented predicates. -/
theorem Parse_total_and_examples :
    (∀ text : String, (Parse text).raw_query = text) ∧
    (∀ text : String,
      (∀ tok ∈ tokenize text,
        genderOf tok = none ∧ colorVocab.contains tok = false) →
      Parse text = { gender := none, upper_color := none,
                     lower_color := none, raw_query := text }) ∧
    Parse "male wearing red shirt" =
      { gender := some "male", upper_color := some "red",
        lower_color := none, raw_query := "male wearing red shirt" } ∧
    Parse "female with blue pants" =
      { gender := some "female", upper_color := none,
        lower_color := some "blue", raw_query := "female with blue pants" } ∧
    Parse "person with black top and white bottom" =
      { gender := none, upper_color := some "black",
        lower_color := some "white",
        raw_query := "person with black top and white bottom" } ∧
    Parse "no attributes here" =
      { gender := none, upper_color := none, lower_color := none,
        raw_query := "no attributes here" } := by
  have hraw : ∀ (acc : ParsedQuery) (ts : List String),
      (parseTokens acc ts).raw_query = acc.raw_query := by
    intro acc ts
    induction ts generalizing acc with
    | nil => rfl
    | cons t ts ih =>
      simp only [parseTokens]
      rw [ih]
      rcases h : genderOf t with _ | g <;>
        rcases hc : colorVocab.contains t with _ | _ <;>
          simp [h, hc] <;> rcases slotFor ts <;> rfl
  have hunset : ∀ (acc : ParsedQuery) (ts : List String),
      (∀ tok ∈ ts, genderOf tok = none ∧ colorVocab.contains tok = false) →
      parseTokens acc ts = acc := by
    intro acc ts h
    induction ts generalizing acc with
    | nil => rfl
    | cons t ts ih =>
      have ht := h t (List.mem_cons_self t ts)
      simp only [parseTokens, ht.1, ht.2]
      exact ih acc fun tok hm => h tok (List.mem_cons_of_mem t hm)
  refine ⟨fun text => hraw _ _, fun text h => ?_, by decide, by decide, by decide, by decide⟩
  exact hunset _ _ h

/-- Witness for C2: the input "no attributes here" has no recognizable
token, so the unrecognized-input clause applies to it. -/
theorem Parse_total_and_examples_witness :
    Parse "no attributes here" =
      { gender := none, upper_color := none, lower_color := none,
        raw_query := "no attributes here" } :=
  Parse_total_and_examples.2.1 "no attributes here" (by decide)

/-! ## SearchEngine (backend; modelled from the spec) -/

/-- A stored detection joined with its attribute row, as the search
surface returns it (`SearchResultItem` in
`src/frontend/src/types/search.types.ts`, restricted to the fields search
filters and sorts on). -/
structure SearchDet where
  detection_id : Nat
  video_id : Nat
  timestamp_in_video : ℚ
  gender : Option String
  upper_color : Option String
  lower_color : Option String
  aggregate_confidence : ℚ
deriving DecidableEq, Repr

/-- The `AttributePredicate` value object of the spec: optional gender,
colors, video and time range, plus the confidence floor. -/
structure AttributePredicate where
  gender : Option String
  upper_color : Option String
  lower_color : Option String
  min_confidence : ℚ
  video_id : Option Nat
  time_range : Option (ℚ × ℚ)
deriving DecidableEq, Repr

/-- An unset optional field imposes no constraint; a set field must
match exactly. -/
def optMatch (f : Option String) (v : Option String) : Bool :=
  match f with
  | none => true
  | some x => v == some x

/-- Modelled from the spec: conjunctive (AND) predicate matching of
SearchEngine 4.3, with the inclusive confidence boundary
`aggregate_confidence >= min_confidence`. -/
def predMatches (p : AttributePredicate) (d : SearchDet) : Bool :=
  optMatch p.gender d.gender &&
  optMatch p.upper_color d.upper_color &&
  optMatch p.lower_color d.lower_color &&
  (match p.video_id with
   | none => true
   | some v => d.video_id == v) &&
  (match p.time_range with
   | none => true
   | some r => decide (r.1 ≤ d.timestamp_in_video ∧ d.timestamp_in_video ≤ r.2)) &&
  decide (p.min_confidence ≤ d.aggregate_confidence)

/-- Sort key choices of `Search`. -/
inductive SortKey where
  | confidence | timestamp
deriving DecidableEq, Repr

/-- Sort order choices of `Search`. -/
inductive SortOrder where
  | asc | desc
deriving DecidableEq, Repr

/-- Modelled from the spec: the result ordering of 4.3 — primary key
from `sort_by`/`sort_order`, ties broken by `detection_id` ascending. -/
def sortLE (k : SortKey) (o : SortOrder) (a b : SearchDet) : Bool :=
  let ka : ℚ := match k with
    | SortKey.confidence => a.aggregate_confidence
    | SortKey.timestamp => a.timestamp_in_video
  let kb : ℚ := match k with
    | SortKey.confidence => b.aggregate_confidence
    | SortKey.timestamp => b.timestamp_in_video
  match o with
  | SortOrder.asc =>
    decide (ka < kb) || (decide (ka = kb) && decide (a.detection_id ≤ b.detection_id))
  | SortOrder.desc =>
    decide (kb < ka) || (decide (ka = kb) && decide (a.detection_id ≤ b.detection_id))

/-- Insert a detection into a sorted list under `le`. -/
def insertSorted (le : SearchDet → SearchDet → Bool) (a : SearchDet) :
    List SearchDet → List SearchDet
  | [] => [a]
  | b :: bs => if le a b then a :: b :: bs else b :: insertSorted le a bs

/-- Insertion sort of detections under `le`. -/
def sortDets (le : SearchDet → SearchDet → Bool) : List SearchDet → List SearchDet
  | [] => []
  | a :: rest => insertSorted le a (sortDets le rest)

/-- Modelled from the spec: the full (unpaginated) result set of
`Search` — the stored detections filtered by the predicate, sorted. -/
def searchResults (p : AttributePredicate) (k : SortKey) (o : SortOrder)
    (dets : List SearchDet) : List SearchDet :=
  sortDets (sortLE k o) (dets.filter (predMatches p))

/-- Modelled from the spec: `Search` of 4.3 — returns the total filtered
count together with the offset/limit page of the sorted results. -/
def search (p : AttributePredicate) (k : SortKey) (o : SortOrder)
    (limit offset : Nat) (dets : List SearchDet) : Nat × List SearchDet :=
  ((dets.filter (predMatches p)).length,
   ((searchResults p k o dets).drop offset).take limit)

/-- Membership is preserved by `insertSorted`. -/
theorem mem_insertSorted (le : SearchDet → SearchDet → Bool) (a x : SearchDet)
    (l : List SearchDet) : x ∈ insertSorted le a l ↔ x = a ∨ x ∈ l := by
  induction l with
  | nil => simp [insertSorted]
  | cons b bs ih =>
    by_cases h : le a b = true
    · simp [insertSorted, h]
    · simp only [insertSorted, if_neg h, List.mem_cons, ih]
      tauto

/-- Membership is preserved by `sortDets`. -/
theorem mem_sortDets (le : SearchDet → SearchDet → Bool) (x : SearchDet)
    (l : List SearchDet) : x ∈ sortDets le l ↔ x ∈ l := by
  induction l with
  | nil => simp [sortDets]
  | cons a rest ih => simp [sortDets, mem_insertSorted, ih]

/-- The empty predicate with confidence floor 0.6, as in the spec's
search example. -/
def examplePredicate : AttributePredicate :=
  { gender := none, upper_color := none, lower_color := none,
    min_confidence := 0.6, video_id := none, time_range := none }

/-- Example detection with aggregate confidence 0.9. -/
def exampleDetHigh : SearchDet :=
  { detection_id := 1, video_id := 1, timestamp_in_video := 0,
    gender := none, upper_color := none, lower_color := none,
    aggregate_confidence := 0.9 }

/-- Example detection with aggregate confidence 0.5. -/
def exampleDetLow : SearchDet :=
  { detection_id := 2, video_id := 1, timestamp_in_video := 1,
    gender := none, upper_color := none, lower_color := none,
    aggregate_confidence := 0.5 }

/-- Example detection with aggregate confidence 0.7. -/
def exampleDetMid : SearchDet :=
  { detection_id := 3, video_id := 1, timestamp_in_video := 2,
    gender := none, upper_color := none, lower_color := none,
    aggregate_confidence := 0.7 }

/-- C3: a detection is in the search result set exactly when it is in
the store, every set predicate field matches, and its
`aggregate_confidence` is greater than or equal to `min_confidence`
(inclusive boundary); and on detections with confidences
[0.9, 0.5, 0.7] and `min_confidence = 0.6`, `search` by confidence
descending returns total 2 and exactly the 0.9 and 0.7 detections in
that order. -/
theorem search_inclusive_filter (p : AttributePredicate) (k : SortKey)
    (o : SortOrder) (dets : List SearchDet) :
    (∀ x, x ∈ searchResults p k o dets ↔ x ∈ dets ∧ predMatches p x = true) ∧
    (∀ x, predMatches p x = true ↔
      ((∀ g, p.gender = some g → x.gender = some g) ∧
       (∀ c, p.upper_color = some c → x.upper_color = some c) ∧
       (∀ c, p.lower_color = some c → x.lower_color = some c) ∧
       (∀ v, p.video_id = some v → x.video_id = v) ∧
       (∀ r, p.time_range = some r →
          r.1 ≤ x.timestamp_in_video ∧ x.timestamp_in_video ≤ r.2) ∧
       p.min_confidence ≤ x.aggregate_confidence)) ∧
    search examplePredicate SortKey.confidence SortOrder.desc 50 0
      [exampleDetHigh, exampleDetLow, exampleDetMid] =
      (2, [exampleDetHigh, exampleDetMid]) := by
  refine ⟨?_, ?_, ?_⟩
  · intro x
    rw [searchResults, mem_sortDets, List.mem_filter]
  · intro x
    simp only [predMatches, Bool.and_eq_true, decide_eq_true_eq]
    constructor
    · rintro ⟨⟨⟨⟨⟨h1, h2⟩, h3⟩, h4⟩, h5⟩, h6⟩
      refine ⟨?_, ?_, ?_, ?_, ?_, h6⟩
      · intro g hg
        rw [hg] at h1
        simpa [optMatch] using h1
      · intro c hc
        rw [hc] at h2
        simpa [optMatch] using h2
      · intro c hc
        rw [hc] at h3
        simpa [optMatch] using h3
      · intro v hv
        rw [hv] at h4
        simpa using h4
      · intro r hr
        rw [hr] at h5
        simpa using h5
    · rintro ⟨h1, h2, h3, h4, h5, h6⟩
      refine ⟨⟨⟨⟨⟨?_, ?_⟩, ?_⟩, ?_⟩, ?_⟩, h6⟩
      · rcases hg : p.gender with _ | g
        · simp [optMatch]
        · simp [optMatch, h1 g hg]
      · rcases hc : p.upper_color with _ | c
        · simp [optMatch]
        · simp [optMatch, h2 c hc]
      · rcases hc : p.lower_color with _ | c
        · simp [optMatch]
        · simp [optMatch, h3 c hc]
      · rcases hv : p.video_id with _ | v
        · simp
        · simp [h4 v hv]
      · rcases hr : p.time_range with _ | r
        · simp
        · simp [h5 r hr]
  · simp only [search, searchResults, examplePredicate, exampleDetHigh,
      exampleDetLow, exampleDetMid, predMatches, optMatch, List.filter,
      sortDets, insertSorted, sortLE]
    norm_num [sortDets, insertSorted, sortLE]

/-- Witness for C3: the 0.9-confidence detection is in the result set of
the example search, via the membership characterization. -/
theorem search_inclusive_filter_witness :
    exampleDetHigh ∈ searchResults examplePredicate SortKey.confidence
      SortOrder.desc [exampleDetHigh, exampleDetLow, exampleDetMid] :=
  ((search_inclusive_filter examplePredicate SortKey.confidence SortOrder.desc
      [exampleDetHigh, exampleDetLow, exampleDetMid]).1 exampleDetHigh).mpr
    ⟨by simp, by norm_num [predMatches, optMatch, examplePredicate, exampleDetHigh]⟩

/-! ## PipelineOrchestrator state machine (backend; modelled from the spec) -/

/-- The `processing_status` union of `Video`
(`src/frontend/src/types/detection.types.ts`). -/
inductive ProcessingStatus where
  | uploaded | processing | completed | failed
deriving DecidableEq, Repr

/-- The `Video` record, restricted to the fields the pipeline state
machine and the status read touch. -/
structure PVideo where
  video_id : Nat
  processing_status : ProcessingStatus
  current_frame : Nat
  total_frames : Option Nat
  detections_count : Nat
deriving DecidableEq, Repr

/-- The store of videos, keyed by `video_id`. -/
structure PipelineState where
  videos : Nat → Option PVideo

/-- Errors of the pipeline surface (spec 4.1 / error taxonomy 7). -/
inductive PipeErr where
  | ErrNotFound | ErrAlreadyProcessing
deriving DecidableEq, Repr

/-- Replace one video in the store. -/
def setVideo (s : PipelineState) (vid : Nat) (v : PVideo) : PipelineState :=
  ⟨fun i => if i = vid then some v else s.videos i⟩

/-- Modelled from the spec: `StartProcessing(video_id)` (absent
backend).  Precondition: the Video exists and is `uploaded`; then it
atomically becomes `processing`; any other status is rejected with
`ErrAlreadyProcessing`; a missing video is `ErrNotFound`. -/
def startProcessing (vid : Nat) (s : PipelineState) : Except PipeErr PipelineState :=
  match s.videos vid with
  | none => Except.error PipeErr.ErrNotFound
  | some v =>
    if v.processing_status = ProcessingStatus.uploaded then
      Except.ok (setVideo s vid { v with processing_status := ProcessingStatus.processing })
    else Except.error PipeErr.ErrAlreadyProcessing

/-- Update a video with `f` when it exists and is `processing`;
otherwise leave the store unchanged. -/
def updateIfProcessing (vid : Nat) (f : PVideo → PVideo) (s : PipelineState) :
    PipelineState :=
  match s.videos vid with
  | some v =>
    if v.processing_status = ProcessingStatus.processing then setVideo s vid (f v)
    else s
  | none => s

/-- Modelled from the spec: loop completion transitions a `processing`
video to `completed`. -/
def completeProcessing (vid : Nat) (s : PipelineState) : PipelineState :=
  updateIfProcessing vid
    (fun v => { v with processing_status := ProcessingStatus.completed }) s

/-- Modelled from the spec: an unrecoverable error transitions a
`processing` video to `failed`. -/
def failProcessing (vid : Nat) (s : PipelineState) : PipelineState :=
  updateIfProcessing vid
    (fun v => { v with processing_status := ProcessingStatus.failed }) s

/-- Modelled from the spec: one frame-loop step of a `processing` video
advances `current_frame` and adds the detections found. -/
def processFrame (vid found : Nat) (s : PipelineState) : PipelineState :=
  updateIfProcessing vid
    (fun v => { v with current_frame := v.current_frame + 1,
                       detections_count := v.detections_count + found }) s

/-- The `VideoProcessingStatus` read record
(`src/frontend/src/types/detection.types.ts`). -/
structure StatusRead where
  status : ProcessingStatus
  progress_percent : ℚ
  current_frame : Nat
  detections_count : Nat
deriving DecidableEq, Repr

/-- Modelled from the spec: `progress_percent = current_frame /
total_frames × 100` for a video whose `total_frames` is known. -/
def progressOf (v : PVideo) : ℚ :=
  match v.total_frames with
  | some tf => (v.current_frame : ℚ) / (tf : ℚ) * 100
  | none => 0

/-- Modelled from the spec: `GetStatus(video_id)` (absent backend) —
returns the status read and the untouched store. -/
def getStatus (vid : Nat) (s : PipelineState) :
    Except PipeErr StatusRead × PipelineState :=
  (match s.videos vid with
   | none => Except.error PipeErr.ErrNotFound
   | some v => Except.ok { status := v.processing_status,
                           progress_percent := progressOf v,
                           current_frame := v.current_frame,
                           detections_count := v.detections_count },
   s)

/-- Every operation of the pipeline surface that can touch the store. -/
inductive PipeOp where
  | start (vid : Nat)
  | complete (vid : Nat)
  | failOp (vid : Nat)
  | frame (vid found : Nat)
  | statusOf (vid : Nat)

/-- The state effect of a pipeline operation (errors leave the store
unchanged). -/
def applyPipe : PipeOp → PipelineState → PipelineState
  | PipeOp.start vid, s =>
    match startProcessing vid s with
    | Except.ok s1 => s1
    | Except.error _ => s
  | PipeOp.complete vid, s => completeProcessing vid s
  | PipeOp.failOp vid, s => failProcessing vid s
  | PipeOp.frame vid found, s => processFrame vid found s
  | PipeOp.statusOf vid, s => (getStatus vid s).2

/-- The transition relation of the spec's state machine
`uploaded → processing → {completed, failed}`. -/
def stepAllowed : ProcessingStatus → ProcessingStatus → Bool
  | ProcessingStatus.uploaded, ProcessingStatus.processing => true
  | ProcessingStatus.processing, ProcessingStatus.completed => true
  | ProcessingStatus.processing, ProcessingStatus.failed => true
  | _, _ => false

/-- Lookup after `setVideo`. -/
theorem setVideo_lookup (s : PipelineState) (w vid : Nat) (u : PVideo) :
    (setVideo s w u).videos vid = if vid = w then some u else s.videos vid := rfl

/-- How `updateIfProcessing` can change one stored video: either it is
untouched, or it was `processing` and `f` was applied to it. -/
theorem updateIfProcessing_lookup (w : Nat) (f : PVideo → PVideo)
    (s : PipelineState) (vid : Nat) (v v' : PVideo)
    (hv : s.videos vid = some v)
    (hv' : (updateIfProcessing w f s).videos vid = some v') :
    v' = v ∨ (v.processing_status = ProcessingStatus.processing ∧ v' = f v) := by
  unfold updateIfProcessing at hv'
  rcases hy : s.videos w with _ | u
  · rw [hy] at hv'
    rw [hv] at hv'
    exact Or.inl (Option.some_injective _ hv').symm
  · simp only [hy] at hv'
    by_cases hu : u.processing_status = ProcessingStatus.processing
    · rw [if_pos hu, setVideo_lookup] at hv'
      by_cases hvw : vid = w
      · rw [if_pos hvw] at hv'
        have huv : u = v := by
          rw [hvw] at hv
          rw [hv] at hy
          exact (Option.some_injective _ hy).symm
        subst huv
        exact Or.inr ⟨hu, (Option.some_injective _ hv').symm⟩
      · rw [if_neg hvw] at hv'
        rw [hv] at hv'
        exact Or.inl (Option.some_injective _ hv').symm
    · rw [if_neg hu] at hv'
      rw [hv] at hv'
      exact Or.inl (Option.some_injective _ hv').symm

/-- How a `start` operation can change one stored video: either it is
untouched, or it was `uploaded` and became `processing`. -/
theorem startProcessing_lookup (w : Nat) (s : PipelineState) (vid : Nat)
    (v v' : PVideo) (hv : s.videos vid = some v)
    (hv' : (applyPipe (PipeOp.start w) s).videos vid = some v') :
    v' = v ∨ (v.processing_status = ProcessingStatus.uploaded ∧
      v' = { v with processing_status := ProcessingStatus.processing }) := by
  rcases hx : startProcessing w s with e | s1
  · simp only [applyPipe, hx] at hv'
    rw [hv] at hv'
    exact Or.inl (Option.some_injective _ hv').symm
  · simp only [applyPipe, hx] at hv'
    unfold startProcessing at hx
    rcases hy : s.videos w with _ | u
    · rw [hy] at hx
      cases hx
    · simp only [hy] at hx
      by_cases hu : u.processing_status = ProcessingStatus.uploaded
      · rw [if_pos hu] at hx
        injection hx with hx1
        rw [← hx1, setVideo_lookup] at hv'
        by_cases hvw : vid = w
        · rw [if_pos hvw] at hv'
          have huv : u = v := by
            rw [hvw] at hv
            rw [hv] at hy
            exact (Option.some_injective _ hy).symm
          subst huv
          exact Or.inr ⟨hu, (Option.some_injective _ hv').symm⟩
        · rw [if_neg hvw] at hv'
          rw [hv] at hv'
          exact Or.inl (Option.some_injective _ hv').symm
      · rw [if_neg hu] at hx
        cases hx

/-- C1: under every pipeline operation, a stored Video's
`processing_status` stays in {uploaded, processing, completed, failed}
and changes only along `uploaded → processing → {completed, failed}`;
`completed` and `failed` are terminal — no operation moves a Video out
of them. -/
theorem video_status_machine (op : PipeOp) (s : PipelineState) (vid : Nat)
    (v v' : PVideo) (hv : s.videos vid = some v)
    (hv' : (applyPipe op s).videos vid = some v') :
    (v'.processing_status = ProcessingStatus.uploaded ∨
     v'.processing_status = ProcessingStatus.processing ∨
     v'.processing_status = ProcessingStatus.completed ∨
     v'.processing_status = ProcessingStatus.failed) ∧
    (v'.processing_status = v.processing_status ∨
     stepAllowed v.processing_status v'.processing_status = true) ∧
    ((v.processing_status = ProcessingStatus.completed ∨
      v.processing_status = ProcessingStatus.failed) →
     v'.processing_status = v.processing_status) := by
  refine ⟨by rcases v'.processing_status <;> simp, ?_⟩
  have hrel : v' = v ∨
      (v.processing_status = ProcessingStatus.uploaded ∧
       v'.processing_status = ProcessingStatus.processing) ∨
      (v.processing_status = ProcessingStatus.processing ∧
       (v'.processing_status = ProcessingStatus.completed ∨
        v'.processing_status = ProcessingStatus.failed ∨
        v'.processing_status = ProcessingStatus.processing)) := by
    cases op with
    | start w =>
      rcases startProcessing_lookup w s vid v v' hv hv' with h | ⟨h1, h2⟩
      · exact Or.inl h
      · exact Or.inr (Or.inl ⟨h1, by rw [h2]⟩)
    | complete w =>
      rcases updateIfProcessing_lookup w _ s vid v v' hv hv' with h | ⟨h1, h2⟩
      · exact Or.inl h
      · exact Or.inr (Or.inr ⟨h1, Or.inl (by rw [h2])⟩)
    | failOp w =>
      rcases updateIfProcessing_lookup w _ s vid v v' hv hv' with h | ⟨h1, h2⟩
      · exact Or.inl h
      · exact Or.inr (Or.inr ⟨h1, Or.inr (Or.inl (by rw [h2]))⟩)
    | frame w found =>
      rcases updateIfProcessing_lookup w _ s vid v v' hv hv' with h | ⟨h1, h2⟩
      · exact Or.inl h
      · exact Or.inr (Or.inr ⟨h1, Or.inr (Or.inr (by rw [h2]; exact h1))⟩)
    | statusOf w =>
      simp only [applyPipe, getStatus] at hv'
      rw [hv] at hv'
      exact Or.inl (Option.some_injective _ hv').symm
  rcases hrel with h | ⟨h1, h2⟩ | ⟨h1, h2⟩
  · subst h
    exact ⟨Or.inl rfl, fun _ => rfl⟩
  · constructor
    · rw [h1, h2]
      exact Or.inr rfl
    · intro hterm
      rcases hterm with ht | ht <;> rw [ht] at h1 <;> cases h1
  · constructor
    · rcases h2 with h2 | h2 | h2 <;> rw [h1, h2] <;> simp [stepAllowed]
    · intro hterm
      rcases hterm with ht | ht <;> rw [ht] at h1 <;> cases h1

/-- A concrete uploaded video for the state-machine witness. -/
def sampleVideo : PVideo :=
  { video_id := 7, processing_status := ProcessingStatus.uploaded,
    current_frame := 0, total_frames := some 200, detections_count := 0 }

/-- A concrete one-video store for the state-machine witness. -/
def sampleStore : PipelineState :=
  ⟨fun i => if i = 7 then some sampleVideo else none⟩

/-- Witness for C1: starting the uploaded sample video moves it along
an allowed edge. -/
theorem video_status_machine_witness :
    ((applyPipe (PipeOp.start 7) sampleStore).videos 7 =
      some { sampleVideo with processing_status := ProcessingStatus.processing }) ∧
    (stepAllowed ProcessingStatus.uploaded ProcessingStatus.processing = true) := by
  have hv' : (applyPipe (PipeOp.start 7) sampleStore).videos 7 =
      some { sampleVideo with processing_status := ProcessingStatus.processing } := by
    simp [applyPipe, startProcessing, sampleStore, sampleVideo, setVideo]
  have h := video_status_machine (PipeOp.start 7) sampleStore 7 sampleVideo
    { sampleVideo with processing_status := ProcessingStatus.processing }
    (by simp [sampleStore]) hv'
  exact ⟨hv', by simpa [sampleVideo] using h.2.1.resolve_left (by simp [sampleVideo])⟩

/-- C7: `startProcessing` succeeds exactly when the Video exists in
status `uploaded`, in which case it atomically moves it to `processing`;
an existing Video in any other status is rejected with
`ErrAlreadyProcessing` (a missing one with `ErrNotFound`); and after a
successful call a second call on the same Video is rejected, so of two
racing calls at most one succeeds. -/
theorem startProcessing_contract (vid : Nat) (s : PipelineState) :
    (∀ s1, startProcessing vid s = Except.ok s1 ↔
      ∃ v, s.videos vid = some v ∧
        v.processing_status = ProcessingStatus.uploaded ∧
        s1 = setVideo s vid
          { v with processing_status := ProcessingStatus.processing }) ∧
    (∀ v, s.videos vid = some v →
      v.processing_status ≠ ProcessingStatus.uploaded →
      startProcessing vid s = Except.error PipeErr.ErrAlreadyProcessing) ∧
    (s.videos vid = none →
      startProcessing vid s = Except.error PipeErr.ErrNotFound) ∧
    (∀ s1, startProcessing vid s = Except.ok s1 →
      startProcessing vid s1 = Except.error PipeErr.ErrAlreadyProcessing) := by
  have hok : ∀ s1, startProcessing vid s = Except.ok s1 ↔
      ∃ v, s.videos vid = some v ∧
        v.processing_status = ProcessingStatus.uploaded ∧
        s1 = setVideo s vid
          { v with processing_status := ProcessingStatus.processing } := by
    intro s1
    unfold startProcessing
    rcases hy : s.videos vid with _ | u
    · simp
    · simp only [hy]
      by_cases hu : u.processing_status = ProcessingStatus.uploaded
      · rw [if_pos hu]
        constructor
        · intro h
          injection h with h1
          exact ⟨u, rfl, hu, h1.symm⟩
        · rintro ⟨v, hv, _, rfl⟩
          injection hv with hv1
          rw [hv1]
      · rw [if_neg hu]
        constructor
        · intro h
          cases h
        · rintro ⟨v, hv, hvu, _⟩
          injection hv with hv1
          exact absurd (hv1 ▸ hvu) hu
  refine ⟨hok, ?_, ?_, ?_⟩
  · intro v hv hne
    unfold startProcessing
    simp only [hv]
    rw [if_neg hne]
  · intro hnone
    unfold startProcessing
    rw [hnone]
  · intro s1 h
    rcases (hok s1).mp h with ⟨v, _, _, rfl⟩
    unfold startProcessing
    rw [setVideo_lookup, if_pos rfl]
    simp

/-- Witness for C7: starting the uploaded sample video succeeds, and a
second start on the resulting state is rejected with
`ErrAlreadyProcessing`. -/
theorem startProcessing_contract_witness :
    startProcessing 7 (setVideo sampleStore 7
      { sampleVideo with processing_status := ProcessingStatus.processing }) =
      Except.error PipeErr.ErrAlreadyProcessing :=
  (startProcessing_contract 7 sampleStore).2.2.2 _
    (((startProcessing_contract 7 sampleStore).1 _).mpr
      ⟨sampleVideo, by simp [sampleStore], rfl, rfl⟩)

/-- Polling `getStatus` repeatedly, threading the returned state. -/
def pollStatus (vid : Nat) : Nat → PipelineState → PipelineState
  | 0, s => s
  | n + 1, s => pollStatus vid n (getStatus vid s).2

/-- C8: `getStatus` is a pure read — it returns the store unchanged, so
polling it any number of times changes nothing — and for a stored video
whose `total_frames` is known it reports
`progress_percent = current_frame / total_frames * 100`. -/
theorem getStatus_pure_and_progress (vid : Nat) (s : PipelineState) :
    (getStatus vid s).2 = s ∧
    (∀ n, pollStatus vid n s = s) ∧
    (∀ v, s.videos vid = some v → ∀ tf, v.total_frames = some tf →
      (getStatus vid s).1 = Except.ok
        { status := v.processing_status,
          progress_percent := (v.current_frame : ℚ) / (tf : ℚ) * 100,
          current_frame := v.current_frame,
          detections_count := v.detections_count }) := by
  refine ⟨rfl, ?_, ?_⟩
  · intro n
    induction n with
    | zero => rfl
    | succ n ih => simpa [pollStatus, getStatus] using ih
  · intro v hv tf htf
    simp [getStatus, hv, progressOf, htf]

/-- Witness for C8: reading the sample video's status touches nothing
and reports the spec's progress formula. -/
theorem getStatus_pure_and_progress_witness :
    (getStatus 7 sampleStore).2 = sampleStore ∧
    pollStatus 7 5 sampleStore = sampleStore ∧
    (getStatus 7 sampleStore).1 = Except.ok
      { status := sampleVideo.processing_status,
        progress_percent := (sampleVideo.current_frame : ℚ) / ((200 : Nat) : ℚ) * 100,
        current_frame := sampleVideo.current_frame,
        detections_count := sampleVideo.detections_count } :=
  ⟨(getStatus_pure_and_progress 7 sampleStore).1,
   (getStatus_pure_and_progress 7 sampleStore).2.1 5,
   (getStatus_pure_and_progress 7 sampleStore).2.2 sampleVideo
     (by simp [sampleStore]) 200 rfl⟩

/-! ## AlertRuleEngine (backend; modelled from the spec) -/

/-- The `AlertRule` record
(`src/frontend/src/services/alertService.ts`), restricted to the fields
rule evaluation reads. -/
structure EngineRule where
  rule_id : Nat
  gender : Option String
  upper_color : Option String
  lower_color : Option String
  min_confidence : ℚ
  is_active : Bool
deriving DecidableEq, Repr

/-- The `TriggeredAlert` record
(`src/frontend/src/services/alertService.ts`), restricted to the fields
evaluation and acknowledgement touch; times are abstract ticks. -/
structure EngineAlert where
  alert_id : Nat
  rule_id : Nat
  detection_id : Nat
  is_read : Bool
  is_acknowledged : Bool
  acknowledged_by : Option Nat
  acknowledged_at : Option Nat
  triggered_at : Nat
deriving DecidableEq, Repr

/-- The alert engine's state: the rules, the persisted triggered
alerts, the per-rule last-trigger time, the deployment-wide notification
interval, and the id counter. -/
structure EngineState where
  rules : List EngineRule
  alerts : List EngineAlert
  lastTrigger : Nat → Option Nat
  interval : Nat
  nextId : Nat

/-- Modelled from the spec: rule matching of 4.4 — the same conjunctive
field semantics as search, with
`aggregate_confidence >= rule.min_confidence`. -/
def ruleMatches (r : EngineRule) (d : SearchDet) : Bool :=
  optMatch r.gender d.gender &&
  optMatch r.upper_color d.upper_color &&
  optMatch r.lower_color d.lower_color &&
  decide (r.min_confidence ≤ d.aggregate_confidence)

/-- A TriggeredAlert for this (rule, detection) pair already exists. -/
def alreadyTriggered (alerts : List EngineAlert) (rid did : Nat) : Bool :=
  alerts.any fun a => decide (a.rule_id = rid) && decide (a.detection_id = did)

/-- Modelled from the spec: the throttle of 4.4 — a new alert for a rule
is suppressed while the rule's last trigger lies within the notification
interval. -/
def throttled (last : Option Nat) (now interval : Nat) : Bool :=
  match last with
  | none => false
  | some t => decide (now < t + interval)

/-- Modelled from the spec: one rule's evaluation step — on an active
matching rule, unless the (rule, detection) pair was already alerted or
the rule is throttled, persist a TriggeredAlert with
`is_read = false, is_acknowledged = false` and update the rule's
last-trigger time. -/
def evalRule (d : SearchDet) (now : Nat) (s : EngineState) (r : EngineRule) :
    EngineState :=
  if r.is_active && ruleMatches r d &&
     !alreadyTriggered s.alerts r.rule_id d.detection_id &&
     !throttled (s.lastTrigger r.rule_id) now s.interval then
    { s with
      alerts := s.alerts ++
        [{ alert_id := s.nextId, rule_id := r.rule_id,
           detection_id := d.detection_id, is_read := false,
           is_acknowledged := false, acknowledged_by := none,
           acknowledged_at := none, triggered_at := now }],
      lastTrigger := fun rid => if rid = r.rule_id then some now
                                else s.lastTrigger rid,
      nextId := s.nextId + 1 }
  else s

/-- Modelled from the spec: `AlertRuleEngine.Evaluate` (absent backend)
— test a newly persisted Detection+Attribute pair against every rule. -/
def evaluate (d : SearchDet) (now : Nat) (s : EngineState) : EngineState :=
  s.rules.foldl (evalRule d now) s

/-- The number of persisted TriggeredAlerts for one (rule, detection)
pair. -/
def pairCount (alerts : List EngineAlert) (rid did : Nat) : Nat :=
  (alerts.filter fun a => decide (a.rule_id = rid) && decide (a.detection_id = did)).length

/-- `alreadyTriggered` is `pairCount ≠ 0`. -/
theorem alreadyTriggered_eq_false_iff (alerts : List EngineAlert) (rid did : Nat) :
    alreadyTriggered alerts rid did = false ↔ pairCount alerts rid did = 0 := by
  simp [alreadyTriggered, pairCount, List.any_eq_true, List.filter_eq_nil_iff,
    List.length_eq_zero]

/-- Appending one alert adds one to its own pair's count and nothing to
any other pair's. -/
theorem pairCount_append_one (xs : List EngineAlert) (a : EngineAlert)
    (rid did : Nat) :
    pairCount (xs ++ [a]) rid did =
      pairCount xs rid did +
        (if a.rule_id = rid ∧ a.detection_id = did then 1 else 0) := by
  simp only [pairCount, List.filter_append, List.length_append]
  congr 1
  by_cases h1 : a.rule_id = rid <;> by_cases h2 : a.detection_id = did <;>
    simp [List.filter, h1, h2]

/-- One evaluation step keeps every pair's alert count at most one. -/
theorem evalRule_pairCount_le (d : SearchDet) (now : Nat) (s : EngineState)
    (r : EngineRule) (hwf : ∀ rid did, pairCount s.alerts rid did ≤ 1)
    (rid did : Nat) :
    pairCount (evalRule d now s r).alerts rid did ≤ 1 := by
  unfold evalRule
  by_cases hc : (r.is_active && ruleMatches r d &&
      !alreadyTriggered s.alerts r.rule_id d.detection_id &&
      !throttled (s.lastTrigger r.rule_id) now s.interval) = true
  · rw [if_pos hc]
    simp only [Bool.and_eq_true, Bool.not_eq_true'] at hc
    have hzero : pairCount s.alerts r.rule_id d.detection_id = 0 :=
      (alreadyTriggered_eq_false_iff _ _ _).mp hc.1.2
    show pairCount (s.alerts ++ [_]) rid did ≤ 1
    rw [pairCount_append_one]
    show pairCount s.alerts rid did +
      (if r.rule_id = rid ∧ d.detection_id = did then 1 else 0) ≤ 1
    by_cases hp : r.rule_id = rid ∧ d.detection_id = did
    · rw [hp.1, hp.2] at hzero
      rw [hzero, if_pos hp]
    · rw [if_neg hp]
      simpa using hwf rid did
  · rw [if_neg hc]
    exact hwf rid did

/-- Folding evaluation over any rule list keeps every pair's alert count
at most one. -/
theorem foldl_evalRule_pairCount_le (d : SearchDet) (now : Nat)
    (rules : List EngineRule) (s : EngineState)
    (hwf : ∀ rid did, pairCount s.alerts rid did ≤ 1) (rid did : Nat) :
    pairCount ((rules.foldl (evalRule d now) s).alerts) rid did ≤ 1 := by
  induction rules generalizing s with
  | nil => exact hwf rid did
  | cons r rest ih =>
    exact ih (evalRule d now s r)
      (fun rid1 did1 => evalRule_pairCount_le d now s r hwf rid1 did1)

/-- C5: `Evaluate` is idempotent per detection — starting from a store
with at most one TriggeredAlert per (rule, detection) pair, evaluating a
Detection and then evaluating it again (a retry, at any time) still
leaves at most one TriggeredAlert per (rule, detection) pair, for every
pair in the system. -/
theorem evaluate_idempotent_pairs (d : SearchDet) (now now2 : Nat)
    (s : EngineState) (hwf : ∀ rid did, pairCount s.alerts rid did ≤ 1) :
    (∀ rid did, pairCount ((evaluate d now s).alerts) rid did ≤ 1) ∧
    (∀ rid did,
      pairCount ((evaluate d now2 (evaluate d now s)).alerts) rid did ≤ 1) := by
  have h1 : ∀ rid did, pairCount ((evaluate d now s).alerts) rid did ≤ 1 :=
    fun rid did => foldl_evalRule_pairCount_le d now s.rules s hwf rid did
  exact ⟨h1, fun rid did =>
    foldl_evalRule_pairCount_le d now2 (evaluate d now s).rules
      (evaluate d now s) h1 rid did⟩

/-- A one-rule engine with no alerts yet, notification interval `i`. -/
def initialEngine (rule : EngineRule) (i : Nat) : EngineState :=
  { rules := [rule], alerts := [], lastTrigger := fun _ => none,
    interval := i, nextId := 0 }

/-- C4: for every rule, two matching Detections evaluated within the
configured notification interval produce exactly one TriggeredAlert (the
second is throttled by the rule's last-trigger time), and a third match
after the interval has elapsed produces a second TriggeredAlert. -/
theorem evaluate_throttling (rule : EngineRule) (d1 d2 d3 : SearchDet)
    (t1 t2 t3 i : Nat) (hact : rule.is_active = true)
    (hm1 : ruleMatches rule d1 = true) (hm2 : ruleMatches rule d2 = true)
    (hm3 : ruleMatches rule d3 = true)
    (h12 : t2 < t1 + i) (h13 : t1 + i ≤ t3)
    (hd2 : d2.detection_id ≠ d1.detection_id)
    (hd3 : d3.detection_id ≠ d1.detection_id) :
    (evaluate d2 t2 (evaluate d1 t1 (initialEngine rule i))).alerts.length = 1 ∧
    (evaluate d3 t3 (evaluate d2 t2
      (evaluate d1 t1 (initialEngine rule i)))).alerts.length = 2 := by
  set s1 := evaluate d1 t1 (initialEngine rule i) with hs1
  have h1 : s1.alerts =
      [{ alert_id := 0, rule_id := rule.rule_id,
         detection_id := d1.detection_id, is_read := false,
         is_acknowledged := false, acknowledged_by := none,
         acknowledged_at := none, triggered_at := t1 }] ∧
      s1.lastTrigger rule.rule_id = some t1 ∧
      s1.rules = [rule] ∧ s1.interval = i := by
    rw [hs1]
    simp [evaluate, initialEngine, evalRule, hact, hm1, alreadyTriggered, throttled]
  have h2 : evaluate d2 t2 s1 = s1 := by
    show s1.rules.foldl (evalRule d2 t2) s1 = s1
    rw [h1.2.2.1]
    show evalRule d2 t2 s1 rule = s1
    unfold evalRule
    rw [h1.2.1, h1.2.2.2]
    simp [throttled, h12]
  have hlen1 : (evaluate d2 t2 s1).alerts.length = 1 := by
    rw [h2, h1.1]
    rfl
  refine ⟨hlen1, ?_⟩
  rw [h2]
  show (s1.rules.foldl (evalRule d3 t3) s1).alerts.length = 2
  rw [h1.2.2.1]
  show (evalRule d3 t3 s1 rule).alerts.length = 2
  unfold evalRule
  rw [h1.2.1, h1.2.2.2, h1.1]
  have hne : d1.detection_id ≠ d3.detection_id := fun h => hd3 h.symm
  simp [throttled, alreadyTriggered, hact, hm3, Nat.not_lt.mpr h13, hne]

/-- A concrete always-matching rule for the throttling witness. -/
def witRule : EngineRule :=
  { rule_id := 1, gender := none, upper_color := none, lower_color := none,
    min_confidence := 0.5, is_active := true }

/-- First concrete matching detection for the throttling witness. -/
def witDetOne : SearchDet :=
  { detection_id := 10, video_id := 1, timestamp_in_video := 0,
    gender := some "male", upper_color := some "red", lower_color := none,
    aggregate_confidence := 0.8 }

/-- Second concrete matching detection for the throttling witness. -/
def witDetTwo : SearchDet :=
  { witDetOne with detection_id := 11, timestamp_in_video := 1 }

/-- Third concrete matching detection for the throttling witness. -/
def witDetThree : SearchDet :=
  { witDetOne with detection_id := 12, timestamp_in_video := 9 }

/-- Witness for C4: with interval 5, matches at times 0 and 3 yield one
alert; a third match at time 10 yields the second. -/
theorem evaluate_throttling_witness :
    (evaluate witDetTwo 3 (evaluate witDetOne 0
      (initialEngine witRule 5))).alerts.length = 1 ∧
    (evaluate witDetThree 10 (evaluate witDetTwo 3
      (evaluate witDetOne 0 (initialEngine witRule 5)))).alerts.length = 2 :=
  evaluate_throttling witRule witDetOne witDetTwo witDetThree 0 3 10 5
    rfl
    (by norm_num [ruleMatches, optMatch, witRule, witDetOne])
    (by norm_num [ruleMatches, optMatch, witRule, witDetOne, witDetTwo])
    (by norm_num [ruleMatches, optMatch, witRule, witDetOne, witDetThree])
    (by norm_num) (by norm_num)
    (by decide) (by decide)

/-- Witness for C5: evaluating the same concrete detection twice
against a fresh one-rule engine leaves at most one TriggeredAlert for
its (rule, detection) pair. -/
theorem evaluate_idempotent_pairs_witness :
    pairCount ((evaluate witDetOne 7 (evaluate witDetOne 0
      (initialEngine witRule 5))).alerts) 1 10 ≤ 1 :=
  (evaluate_idempotent_pairs witDetOne 0 7 (initialEngine witRule 5)
    (fun rid did => by simp [initialEngine, pairCount])).2 1 10

/-! ## Acknowledge (backend; modelled from the spec) -/

/-- Error of the acknowledge surface. -/
inductive AckErr where
  | ErrNotFound
deriving DecidableEq, Repr

/-- Modelled from the spec: `Acknowledge(alert_id, user_id)` (absent
backend; the frontend only posts to
`/alerts/triggered/{id}/acknowledge`).  Fails with `ErrNotFound` when no
alert has the id; otherwise sets `is_acknowledged, acknowledged_by,
acknowledged_at` on the first call and leaves an already-acknowledged
alert untouched (first-write-wins), returning success. -/
def acknowledgeAlert (aid user now : Nat) (alerts : List EngineAlert) :
    Except AckErr (List EngineAlert) :=
  if alerts.any (fun a => decide (a.alert_id = aid)) then
    Except.ok (alerts.map fun a =>
      if a.alert_id = aid then
        if a.is_acknowledged = true then a
        else { a with is_acknowledged := true, acknowledged_by := some user,
                      acknowledged_at := some now }
      else a)
  else Except.error AckErr.ErrNotFound

/-- C6: `acknowledgeAlert` succeeds exactly when an alert with the id
exists and fails with `ErrNotFound` exactly when none does; on success,
a not-yet-acknowledged matching alert gets
`is_acknowledged = true, acknowledged_by = user, acknowledged_at = now`,
an already-acknowledged matching alert is kept unchanged
(first-write-wins), and acknowledging again — any user, any time —
returns success with the store unchanged (idempotence, `acknowledged_at`
untouched). -/
theorem acknowledge_contract (alerts : List EngineAlert) (aid u1 t1 : Nat) :
    ((∃ a ∈ alerts, a.alert_id = aid) ↔
      ∃ l, acknowledgeAlert aid u1 t1 alerts = Except.ok l) ∧
    (acknowledgeAlert aid u1 t1 alerts = Except.error AckErr.ErrNotFound ↔
      ¬ ∃ a ∈ alerts, a.alert_id = aid) ∧
    (∀ l, acknowledgeAlert aid u1 t1 alerts = Except.ok l →
      (∀ a ∈ alerts, a.alert_id = aid → a.is_acknowledged = false →
        { a with is_acknowledged := true, acknowledged_by := some u1,
                 acknowledged_at := some t1 } ∈ l) ∧
      (∀ a ∈ alerts, a.alert_id = aid → a.is_acknowledged = true → a ∈ l) ∧
      (∀ u2 t2, acknowledgeAlert aid u2 t2 l = Except.ok l)) := by
  have hany : (alerts.any fun a => decide (a.alert_id = aid)) = true ↔
      ∃ a ∈ alerts, a.alert_id = aid := by
    simp [List.any_eq_true]
  by_cases h : (alerts.any fun a => decide (a.alert_id = aid)) = true
  · refine ⟨?_, ?_, ?_⟩
    · rw [acknowledgeAlert, if_pos h]
      exact ⟨fun _ => ⟨_, rfl⟩, fun _ => hany.mp h⟩
    · rw [acknowledgeAlert, if_pos h]
      constructor
      · intro hcon
        cases hcon
      · intro hcon
        exact absurd (hany.mp h) hcon
    · intro l hl
      rw [acknowledgeAlert, if_pos h] at hl
      injection hl with hl1
      refine ⟨?_, ?_, ?_⟩
      · intro a ha haid hack
        rw [← hl1]
        refine List.mem_map.mpr ⟨a, ha, ?_⟩
        rw [if_pos haid, hack]
        simp
      · intro a ha haid hack
        rw [← hl1]
        refine List.mem_map.mpr ⟨a, ha, ?_⟩
        rw [if_pos haid, if_pos hack]
      · intro u2 t2
        have hany2 : (l.any fun a => decide (a.alert_id = aid)) = true := by
          rcases hany.mp h with ⟨a, ha, haid⟩
          refine List.any_eq_true.mpr ⟨?_, ?_, ?_⟩
          · exact if a.alert_id = aid then
              (if a.is_acknowledged = true then a
               else { a with is_acknowledged := true,
                             acknowledged_by := some u1,
                             acknowledged_at := some t1 })
              else a
          · rw [← hl1]
            exact List.mem_map.mpr ⟨a, ha, rfl⟩
          · rw [if_pos haid]
            by_cases hack : a.is_acknowledged = true
            · rw [if_pos hack]
              simpa using haid
            · rw [if_neg hack]
              simpa using haid
        rw [acknowledgeAlert, if_pos hany2]
        congr 1
        conv_rhs => rw [← hl1]
        rw [← hl1, List.map_map]
        refine List.map_congr_left ?_
        intro a _
        simp only [Function.comp_apply]
        by_cases haid : a.alert_id = aid
        · rw [if_pos haid]
          by_cases hack : a.is_acknowledged = true
          · rw [if_pos hack, if_pos haid, if_pos hack]
          · rw [if_neg hack]
            have : ({ a with is_acknowledged := true,
                             acknowledged_by := some u1,
                             acknowledged_at := some t1 } :
                EngineAlert).alert_id = aid := haid
            rw [if_pos this]
            rfl
        · rw [if_neg haid, if_neg haid]
  · have hnone : acknowledgeAlert aid u1 t1 alerts =
        Except.error AckErr.ErrNotFound := by
      rw [acknowledgeAlert, if_neg h]
    refine ⟨?_, ?_, ?_⟩
    · constructor
      · intro hex
        exact absurd (hany.mpr hex) h
      · rintro ⟨l, hl⟩
        rw [hnone] at hl
        cases hl
    · rw [hnone]
      exact ⟨fun _ hex => absurd (hany.mpr hex) h, fun _ => rfl⟩
    · intro l hl
      rw [hnone] at hl
      cases hl

/-- A concrete unacknowledged alert for the acknowledge witness. -/
def witAlert : EngineAlert :=
  { alert_id := 5, rule_id := 1, detection_id := 10, is_read := false,
    is_acknowledged := false, acknowledged_by := none,
    acknowledged_at := none, triggered_at := 0 }

/-- Witness for C6: acknowledging the sample alert once sets its fields;
a second acknowledge by another user at a later time returns success and
changes nothing. -/
theorem acknowledge_contract_witness :
    acknowledgeAlert 5 8 200
      [{ witAlert with is_acknowledged := true, acknowledged_by := some 9,
                       acknowledged_at := some 100 }] =
      Except.ok [{ witAlert with is_acknowledged := true,
                                 acknowledged_by := some 9,
                                 acknowledged_at := some 100 }] := by
  have hok : acknowledgeAlert 5 9 100 [witAlert] =
      Except.ok [{ witAlert with is_acknowledged := true,
                                 acknowledged_by := some 9,
                                 acknowledged_at := some 100 }] := by
    rfl
  exact ((acknowledge_contract [witAlert] 5 9 100).2.2 _ hok).2.2 8 200

end Surveillance
